import Mathlib

/-!
Verification of the relationship-state codec of the bluesky-memory-scripts
repository (src/emojikey_manager.js and src/relationship_tracker.js).

JavaScript strings are sequences of UTF-16 code units, and the regular
expressions in the source are written without the unicode flag, so they
operate code unit by code unit.  We therefore embed a JS string as a
List Nat of UTF-16 code units.  Astral emoji turn into surrogate pairs,
exactly as in the engine the source runs on.

Code unit values used by the grammar:
  91 left bracket, 93 right bracket,
  10216 mathematical left angle bracket, 10217 mathematical right angle,
  123 left curly, 125 right curly,
  124 vertical bar, 126 tilde,
  10145 rightwards arrow, 65039 variation selector 16,
  215 multiplication sign, 55 digit seven.
-/

/-- UTF-16 code units of one Unicode scalar value (surrogate pair when astral). -/
def charUnits (c : Char) : List Nat :=
  if c.toNat < 65536 then [c.toNat]
  else [55296 + (c.toNat - 65536) / 1024, 56320 + (c.toNat - 65536) % 1024]

/-- A JS string as its list of UTF-16 code units. -/
def jstr (s : String) : List Nat :=
  (s.toList.map charUnits).flatten

/-- The trend glyph for UP, the two code units of the up-arrow emoji. -/
def upGlyph : List Nat := [11014, 65039]

/-- The trend glyph for DOWN. -/
def downGlyph : List Nat := [11015, 65039]

/-- The trend glyph for STABLE, the left-right arrow emoji. -/
def stableGlyph : List Nat := [8596, 65039]

/-- The trend glyph for CYCLIC, the counterclockwise arrows emoji
(an astral code point, hence a surrogate pair). -/
def cyclicGlyph : List Nat := [55357, 56580]

/-- The lock emoji counted by the trust interpreter (surrogate pair). -/
def lockGlyph : List Nat := [55357, 56594]

/-- Code units the JS dot does not match: the four line terminators. -/
def isLineTermU (x : Nat) : Bool :=
  x = 10 || x = 13 || x = 8232 || x = 8233

/-- Lazy scan of the regex fragment consisting of a lazy dot-star followed by
the closing unit c: splits off everything before the first occurrence of c.
Returns none if c is absent or a line terminator comes first (the JS dot
does not cross line terminators). -/
def splitAtFirst (c : Nat) : List Nat → Option (List Nat × List Nat)
  | [] => none
  | x :: rest =>
    if x = c then some ([], rest)
    else if isLineTermU x then none
    else
      match splitAtFirst c rest with
      | some p => some (x :: p.1, p.2)
      | none => none

/-- Embedding of a non-global JS match of open, lazy dot-star, close:
the engine tries every start position from the left; at a unit equal to
the opener it captures up to the first closer, otherwise (or when the
lazy scan fails) it moves one unit to the right. Returns the captured
group of the leftmost match. -/
def matchFirst (o c : Nat) : List Nat → Option (List Nat)
  | [] => none
  | x :: rest =>
    if x = o then
      match splitAtFirst c rest with
      | some p => some p.1
      | none => matchFirst o c rest
    else matchFirst o c rest

/-- Worker for the global match: fuel counts down one unit per step, so
an initial fuel equal to the length of the string never runs out. -/
def matchAllDelimAux (o c : Nat) : Nat → List Nat → List (List Nat)
  | 0, _ => []
  | _ + 1, [] => []
  | fuel + 1, x :: rest =>
    if x = o then
      match splitAtFirst c rest with
      | some p => p.1 :: matchAllDelimAux o c fuel p.2
      | none => matchAllDelimAux o c fuel rest
    else matchAllDelimAux o c fuel rest

/-- Embedding of a global JS match of open, lazy dot-star, close: the list
of captured groups of all non-overlapping matches, scanning from the left
and resuming after the end of each match.  This non-overlapping resumption
is what makes the source drop every other pipe group. -/
def matchAllDelim (o c : Nat) (s : List Nat) : List (List Nat) :=
  matchAllDelimAux o c s.length s

/-- Embedding of the context match: tilde, left bracket, lazy dot-star,
right bracket.  Scans for a tilde immediately followed by a left bracket
and captures up to the first right bracket after them. -/
def matchTildeBracket : List Nat → Option (List Nat)
  | [] => none
  | x :: rest =>
    if x = 126 ∧ rest.head? = some 91 then
      match splitAtFirst 93 rest.tail with
      | some p => some p.1
      | none => matchTildeBracket rest
    else matchTildeBracket rest

/-- The nine dimension values assembled into a key; mirrors the object
built by calculateUpdates and consumed by assembleEmojikey. -/
structure EmojikeyParts where
  topic : List Nat
  approach : List Nat
  goal : List Nat
  tone : List Nat
  context : List Nat
  trust : List Nat
  style : List Nat
  humor : List Nat
  collab : List Nat
deriving DecidableEq

/-- The record returned by parseEmojikey: the nine dimensions plus the
SuperKey flag. -/
structure ParsedEmojikey extends EmojikeyParts where
  isSuperKey : Bool
deriving DecidableEq

/-- assembleEmojikey from the source: the canonical template
left bracket, topic, right bracket, angle brackets around approach,
brackets around goal, curly braces around tone, the arrow-tilde marker,
brackets around context, then the four pipe-separated dimensions with a
trailing pipe. -/
def assembleEmojikey (parts : EmojikeyParts) : List Nat :=
  [91] ++ parts.topic ++ [93, 10216] ++ parts.approach ++ [10217, 91] ++
  parts.goal ++ [93, 123] ++ parts.tone ++ [125, 10145, 65039, 126, 91] ++
  parts.context ++ [93, 124] ++ parts.trust ++ [124] ++ parts.style ++
  [124] ++ parts.humor ++ [124] ++ parts.collab ++ [124]

/-- parseEmojikey from the source.  The SuperKey test is a prefix test for
the two brackets, the multiplication sign and the digit seven.  Each
dimension is extracted with the regex embeddings above; missing groups
default to the empty string, and the slice removing the delimiters of a
global match is already folded into the captured groups. -/
def parseEmojikey (emojikey : List Nat) : ParsedEmojikey :=
  let isSuper := List.isPrefixOf [91, 91, 215, 55] emojikey
  let topicMatch := matchFirst 91 93 emojikey
  let approachMatch := matchFirst 10216 10217 emojikey
  let goalMatch := matchAllDelim 91 93 emojikey
  let toneMatch := matchFirst 123 125 emojikey
  let contextMatch := matchTildeBracket emojikey
  let trustMatch := matchAllDelim 124 124 emojikey
  { isSuperKey := isSuper
    topic := topicMatch.getD []
    approach := approachMatch.getD []
    goal := if 1 < goalMatch.length then goalMatch.getD 1 [] else []
    tone := toneMatch.getD []
    context := contextMatch.getD []
    trust := if 0 < trustMatch.length then trustMatch.getD 0 [] else []
    style := if 1 < trustMatch.length then trustMatch.getD 1 [] else []
    humor := if 2 < trustMatch.length then trustMatch.getD 2 [] else []
    collab := if 3 < trustMatch.length then trustMatch.getD 3 [] else [] }

/-- Worker for counting global matches of a literal pattern: the count of
non-overlapping occurrences, scanning from the left, as a JS global match
against a literal regex reports.  Fuel counts down one unit per step. -/
def countSubstrAux (pat : List Nat) : Nat → List Nat → Nat
  | 0, _ => 0
  | _ + 1, [] => 0
  | fuel + 1, x :: rest =>
    if List.isPrefixOf pat (x :: rest) then
      1 + countSubstrAux pat fuel (List.drop (pat.length - 1) rest)
    else
      countSubstrAux pat fuel rest

/-- Number of non-overlapping occurrences of a literal pattern. -/
def countSubstr (pat s : List Nat) : Nat := countSubstrAux pat s.length s

/-- The replace of the trend character class: without the unicode flag the
class of the four trend glyphs is a class of six individual UTF-16 code
units (up arrow, variation selector 16, down arrow, left-right arrow, and
the two surrogate halves of the counterclockwise arrows emoji); the global
replace with the empty string deletes every one of those units. -/
def removeTrendUnits (s : List Nat) : List Nat :=
  s.filter (fun x =>
    !(x = 11014 || x = 65039 || x = 11015 || x = 8596 || x = 55357 || x = 56580))

/-- Names of the members every object literal inherits from the default
object prototype in the engines these scripts target: the standard
members, the dunder proto accessor, and the four legacy accessor
management functions.  Property access with one of these names as the
probe finds the inherited member, a function or object and therefore
truthy. -/
def protoNames : List (List Nat) :=
  [jstr "constructor", jstr "hasOwnProperty", jstr "isPrototypeOf",
   jstr "propertyIsEnumerable", jstr "toLocaleString", jstr "toString",
   jstr "valueOf", jstr "__proto__", jstr "__defineGetter__",
   jstr "__defineSetter__", jstr "__lookupGetter__", jstr "__lookupSetter__"]

/-- The value a table-driven interpreter field can hold: a string (an own
table value or the fallback phrase), or a member inherited from the object
prototype, leaked by the property access and carried under its probe
name. -/
inductive JsValue where
  | str (s : List Nat)
  | inherited (name : List Nat)
deriving DecidableEq

/-- JS object-literal lookup with a truthiness fallback.  Property access
first finds an own key equal to the probe; failing that it walks the
prototype chain, so a probe naming an inherited member yields that member,
which is truthy and so short-circuits past the fallback; only otherwise is
the access undefined and the fallback string returned.  Every own value in
these tables is a nonempty string, hence truthy. -/
def lookupMap (m : List (List Nat × List Nat)) (k dflt : List Nat) : JsValue :=
  match m.find? (fun p => p.1 == k) with
  | some p => JsValue.str p.2
  | none =>
    if protoNames.contains k then JsValue.inherited k else JsValue.str dflt

/-- The topic lookup table of interpretTopicEmojis. -/
def topicMap : List (List Nat × List Nat) :=
  [(jstr "💻🧠", jstr "AI and consciousness research"),
   (jstr "🦅💰", jstr "Falcon-backed finance"),
   (jstr "💻🔍", jstr "Technology exploration"),
   (jstr "📱💾", jstr "Mobile and data technology"),
   (jstr "🌐🔒", jstr "Internet security"),
   (jstr "📊📈", jstr "Data analysis and trends")]

/-- The approach lookup table of interpretApproachEmojis. -/
def approachMap : List (List Nat × List Nat) :=
  [(jstr "🔍🤔", jstr "Analytical and thoughtful"),
   (jstr "🚀🔧", jstr "Action-oriented and practical"),
   (jstr "🧩🔍", jstr "Problem-solving focused"),
   (jstr "🔬🧪", jstr "Experimental and testing-oriented"),
   (jstr "📝🎨", jstr "Creative and expressive")]

/-- The goal lookup table of interpretGoalEmojis. -/
def goalMap : List (List Nat × List Nat) :=
  [(jstr "🎯🌟", jstr "Seeking insights and excellence"),
   (jstr "🤝🌱", jstr "Building relationships and growth"),
   (jstr "📊💡", jstr "Gathering data and insights"),
   (jstr "🏆🔝", jstr "Achievement and leadership"),
   (jstr "🔧🛠️", jstr "Building and creating solutions")]

/-- The tone lookup table of interpretToneEmojis. -/
def toneMap : List (List Nat × List Nat) :=
  [(jstr "😊🚀", jstr "Friendly and enthusiastic"),
   (jstr "🧐🤓", jstr "Analytical and intellectual"),
   (jstr "😂🎭", jstr "Humorous and playful"),
   (jstr "👍😎", jstr "Approving and confident"),
   (jstr "🤔❓", jstr "Curious and questioning")]

/-- The context lookup table of interpretContextEmojis. -/
def contextMap : List (List Nat × List Nat) :=
  [(jstr "🌐🔄", jstr "Global tech ecosystem"),
   (jstr "💼📈", jstr "Professional development"),
   (jstr "🎓📚", jstr "Educational context"),
   (jstr "🧪🔬", jstr "Research and exploration"),
   (jstr "🤖👽", jstr "AI and future technologies")]

/-- The style lookup table of interpretStyleEmojis; this lookup keeps the
trend glyphs in the probe (the source applies no replace here). -/
def styleMap : List (List Nat × List Nat) :=
  [(jstr "📊↗️", jstr "Data-driven with positive trends"),
   (jstr "💬↔️", jstr "Conversational and stable"),
   (jstr "🎯⬆️", jstr "Focused and improving"),
   (jstr "🧩🔄", jstr "Problem-solving with changing approaches"),
   (jstr "📝⬆️", jstr "Detailed and progressive")]

/-- interpretTopicEmojis: strip the trend character class, look up, default. -/
def interpretTopicEmojis (topicEmojis : List Nat) : JsValue :=
  lookupMap topicMap (removeTrendUnits topicEmojis) (jstr "General tech discussion")

/-- interpretApproachEmojis. -/
def interpretApproachEmojis (approachEmojis : List Nat) : JsValue :=
  lookupMap approachMap (removeTrendUnits approachEmojis)
    (jstr "General exploratory approach")

/-- interpretGoalEmojis. -/
def interpretGoalEmojis (goalEmojis : List Nat) : JsValue :=
  lookupMap goalMap (removeTrendUnits goalEmojis) (jstr "General exploration goals")

/-- interpretToneEmojis. -/
def interpretToneEmojis (toneEmojis : List Nat) : JsValue :=
  lookupMap toneMap (removeTrendUnits toneEmojis) (jstr "Neutral professional tone")

/-- interpretContextEmojis. -/
def interpretContextEmojis (contextEmojis : List Nat) : JsValue :=
  lookupMap contextMap (removeTrendUnits contextEmojis) (jstr "General digital context")

/-- interpretTrustLevel: count lock glyphs in the untrimmed trust value and
bucket the count. -/
def interpretTrustLevel (trustEmojis : List Nat) : List Nat :=
  let lockCount := countSubstr lockGlyph trustEmojis
  if 3 ≤ lockCount then jstr "High trust established"
  else if lockCount = 2 then jstr "Medium trust developing"
  else if lockCount = 1 then jstr "Initial trust forming"
  else jstr "Trust not yet established"

/-- interpretStyleEmojis: direct table lookup without cleaning. -/
def interpretStyleEmojis (styleEmojis : List Nat) : JsValue :=
  lookupMap styleMap styleEmojis (jstr "Standard communication style")

/-- The JS string includes test: the pattern occurs as a contiguous run of
code units somewhere in the string. -/
def hasSubstr (pat : List Nat) : List Nat → Bool
  | [] => List.isPrefixOf pat []
  | x :: rest => List.isPrefixOf pat (x :: rest) || hasSubstr pat rest

/-- interpretHumorLevel: ordered substring tests. -/
def interpretHumorLevel (humorEmojis : List Nat) : List Nat :=
  if hasSubstr (jstr "😂⬆️") humorEmojis then jstr "High and increasing humor"
  else if hasSubstr (jstr "😂↔️") humorEmojis then jstr "Consistent moderate humor"
  else if hasSubstr (jstr "😂⬇️") humorEmojis then jstr "Decreasing humor level"
  else if hasSubstr (jstr "😐↔️") humorEmojis then
    jstr "Limited humor, primarily serious"
  else jstr "Balanced humor approach"

/-- interpretCollabPattern: ordered substring tests. -/
def interpretCollabPattern (collabEmojis : List Nat) : List Nat :=
  if hasSubstr (jstr "🤝⬆️⬆️") collabEmojis then
    jstr "Strongly increasing collaboration"
  else if hasSubstr (jstr "🤝⬆️") collabEmojis then jstr "Growing collaboration"
  else if hasSubstr (jstr "🤝↔️") collabEmojis then
    jstr "Stable collaborative relationship"
  else if hasSubstr (jstr "🤝⬇️") collabEmojis then jstr "Decreasing collaboration"
  else jstr "Standard collaborative pattern"

/-- detectOverallTrend: count each trend glyph over the whole raw key and
classify with the fixed priority chain. -/
def detectOverallTrend (emojikey : List Nat) : List Nat :=
  let upCount := countSubstr upGlyph emojikey
  let downCount := countSubstr downGlyph emojikey
  let stableCount := countSubstr stableGlyph emojikey
  let fluctuatingCount := countSubstr cyclicGlyph emojikey
  if upCount > downCount ∧ upCount > stableCount then jstr "improving"
  else if downCount > upCount ∧ downCount > stableCount then jstr "declining"
  else if stableCount > upCount ∧ stableCount > downCount then jstr "stable"
  else if fluctuatingCount > upCount ∧ fluctuatingCount > downCount ∧
      fluctuatingCount > stableCount then jstr "fluctuating"
  else jstr "mixed"

/-- The record returned by interpretEmojikey. -/
structure InterpretationReport where
  isSuperKey : Bool
  topicFocus : JsValue
  approachStyle : JsValue
  relationshipGoals : JsValue
  emotionalTone : JsValue
  interactionContext : JsValue
  trustLevel : List Nat
  communicationStyle : JsValue
  humorAlignment : List Nat
  collaborationPattern : List Nat
  overallTrend : List Nat
deriving DecidableEq

/-- interpretEmojikey from the source: parse, then interpret each dimension,
with the overall trend computed from the raw key string. -/
def interpretEmojikey (emojikey : List Nat) : InterpretationReport :=
  let parsed := parseEmojikey emojikey
  { isSuperKey := parsed.isSuperKey
    topicFocus := interpretTopicEmojis parsed.topic
    approachStyle := interpretApproachEmojis parsed.approach
    relationshipGoals := interpretGoalEmojis parsed.goal
    emotionalTone := interpretToneEmojis parsed.tone
    interactionContext := interpretContextEmojis parsed.context
    trustLevel := interpretTrustLevel parsed.trust
    communicationStyle := interpretStyleEmojis parsed.style
    humorAlignment := interpretHumorLevel parsed.humor
    collaborationPattern := interpretCollabPattern parsed.collab
    overallTrend := detectOverallTrend emojikey }

/-- The interaction context consumed by createEmojikey; the source only ever
reads its mentions array, whose absence behaves like the empty array. -/
structure InteractionContext where
  mentions : List (List Nat) := []
deriving DecidableEq

/-- determineTopicEmojis. -/
def determineTopicEmojis (context : InteractionContext) : List Nat :=
  if context.mentions.contains (jstr "ai") ∨
      context.mentions.contains (jstr "consciousness") then jstr "💻🧠"
  else if context.mentions.contains (jstr "falcon") then jstr "🦅💰"
  else jstr "💻🔍"

/-- determineApproachEmojis. -/
def determineApproachEmojis (_context : InteractionContext) : List Nat := jstr "🔍🤔"

/-- determineGoalEmojis. -/
def determineGoalEmojis (_context : InteractionContext) : List Nat := jstr "🎯🌟"

/-- determineToneEmojis. -/
def determineToneEmojis (_context : InteractionContext) : List Nat := jstr "😊🚀"

/-- determineContextEmojis. -/
def determineContextEmojis (_context : InteractionContext) : List Nat := jstr "🌐🔄"

/-- determineTrustLevel. -/
def determineTrustLevel (_context : InteractionContext) : List Nat := jstr "🔒🔒"

/-- determineStyleEmojis. -/
def determineStyleEmojis (_context : InteractionContext) : List Nat := jstr "📊↗️"

/-- determineHumorLevel. -/
def determineHumorLevel (_context : InteractionContext) : List Nat := jstr "😂↔️"

/-- determineCollabPattern. -/
def determineCollabPattern (_context : InteractionContext) : List Nat := jstr "🤝↗️"

/-- createEmojikey from the source: determine the nine components and fill
the canonical template (the username argument is never read). -/
def createEmojikey (context : InteractionContext) : List Nat :=
  [91] ++ determineTopicEmojis context ++ [93, 10216] ++
  determineApproachEmojis context ++ [10217, 91] ++ determineGoalEmojis context ++
  [93, 123] ++ determineToneEmojis context ++ [125, 10145, 65039, 126, 91] ++
  determineContextEmojis context ++ [93, 124] ++ determineTrustLevel context ++
  [124] ++ determineStyleEmojis context ++ [124] ++ determineHumorLevel context ++
  [124] ++ determineCollabPattern context ++ [124]

/-- calculateUpdates from the source: returns the nine parsed dimension
values unchanged; the new context argument is never read and no trend
glyph is produced. -/
def calculateUpdates (parsed : ParsedEmojikey) (_newContext : InteractionContext) :
    EmojikeyParts :=
  { topic := parsed.topic
    approach := parsed.approach
    goal := parsed.goal
    tone := parsed.tone
    context := parsed.context
    trust := parsed.trust
    style := parsed.style
    humor := parsed.humor
    collab := parsed.collab }

/-- updateEmojikey: parse, calculate the updates, reassemble. -/
def updateEmojikey (existingKey : List Nat) (newContext : InteractionContext) :
    List Nat :=
  assembleEmojikey (calculateUpdates (parseEmojikey existingKey) newContext)

/-- analyzePattern from the source: the first value of the dimension across
the history with the UP trend glyph appended (a placeholder by its own
comment; callers guarantee a nonempty list). -/
def analyzePattern (emojiSequences : List (List Nat)) : List Nat :=
  emojiSequences.headD [] ++ upGlyph

/-- The error thrown by createSuperkey when fewer than five keys are given. -/
inductive SuperkeyError where
  | insufficientHistory
deriving DecidableEq

/-- createSuperkey from the source: demand at least five keys, parse them
all, run analyzePattern per dimension, and assemble with the SuperKey
envelope (double bracket, multiplication sign, seven ... double bracket). -/
def createSuperkey (recentKeys : List (List Nat)) :
    Except SuperkeyError (List Nat) :=
  if recentKeys.length < 5 then Except.error SuperkeyError.insufficientHistory
  else
    let parsedKeys := recentKeys.map parseEmojikey
    let topicPattern := analyzePattern (parsedKeys.map (·.topic))
    let approachPattern := analyzePattern (parsedKeys.map (·.approach))
    let goalPattern := analyzePattern (parsedKeys.map (·.goal))
    let tonePattern := analyzePattern (parsedKeys.map (·.tone))
    let contextPattern := analyzePattern (parsedKeys.map (·.context))
    let trustPattern := analyzePattern (parsedKeys.map (·.trust))
    let stylePattern := analyzePattern (parsedKeys.map (·.style))
    let humorPattern := analyzePattern (parsedKeys.map (·.humor))
    let collabPattern := analyzePattern (parsedKeys.map (·.collab))
    Except.ok ([91, 91, 215, 55] ++ topicPattern ++ [93, 10216] ++
      approachPattern ++ [10217, 91] ++ goalPattern ++ [93, 123] ++
      tonePattern ++ [125, 10145, 65039, 126, 91] ++ contextPattern ++
      [93, 124] ++ trustPattern ++ [124] ++ stylePattern ++ [124] ++
      humorPattern ++ [124] ++ collabPattern ++ [124, 93, 93])

/-- generateEmojikey from src/relationship_tracker.js: the components keep
their defaults (the history branch has an empty body), so the result is the
default key for every history; the surrounding try can never throw. -/
def generateEmojikey (_interactionHistory : List (List Nat)) : List Nat :=
  [91] ++ jstr "💻🌐" ++ [93, 10216] ++ jstr "🔍🤝" ++ [10217, 91] ++
  jstr "🎯🔄" ++ [93, 123] ++ jstr "😊🤔" ++ [125, 10145, 65039, 126, 91] ++
  jstr "🌈🧩" ++ [93, 124] ++ jstr "🔒🔒" ++ [124] ++ jstr "📊" ++ [124] ++
  jstr "😂" ++ [124] ++ jstr "🤝" ++ [124]


/-- A glyph sequence is clean when it avoids every delimiter code unit of
the grammar and every line terminator; the glyph material of actual keys
(emoji, surrogates, variation selectors) is clean. -/
def cleanUnit (x : Nat) : Bool :=
  !(x = 91 || x = 93 || x = 10216 || x = 10217 || x = 123 || x = 125 ||
    x = 126 || x = 124 || isLineTermU x)

/-- All units of the sequence are clean. -/
def isCleanSeq (s : List Nat) : Bool := s.all cleanUnit

deriving instance DecidableEq for Except

/-- A concrete complete relationship state: the default component values of
generateEmojikey in src/relationship_tracker.js. -/
def demoParts : EmojikeyParts :=
  { topic := jstr "💻🌐", approach := jstr "🔍🤝", goal := jstr "🎯🔄"
    tone := jstr "😊🤔", context := jstr "🌈🧩", trust := jstr "🔒🔒"
    style := jstr "📊", humor := jstr "😂", collab := jstr "🤝" }

/-- The canonical default key, the encoding of demoParts. -/
def defaultKey : List Nat := assembleEmojikey demoParts

/-- A complete state whose key carries none of the four trend glyphs
(demoParts has the cyclic emoji inside its goal value, so the goal here is
the target-star pair instead). -/
def kNoTrendParts : EmojikeyParts :=
  { topic := jstr "💻🌐", approach := jstr "🔍🤝", goal := jstr "🎯🌟"
    tone := jstr "😊🤔", context := jstr "🌈🧩", trust := jstr "🔒🔒"
    style := jstr "📊", humor := jstr "😂", collab := jstr "🤝" }

/-- The key encoding kNoTrendParts. -/
def kNoTrend : List Nat := assembleEmojikey kNoTrendParts

/-- The SuperKey the source produces from five copies of kNoTrend: every
dimension is the first parsed value with the UP glyph appended.  The style
slot carries the humor emoji and the humor and collab slots are bare UP
glyphs because parseEmojikey already dropped those pipe groups. -/
def kNoTrendSuper : List Nat :=
  [91, 91, 215, 55] ++ (jstr "💻🌐" ++ upGlyph) ++ [93, 10216] ++
  (jstr "🔍🤝" ++ upGlyph) ++ [10217, 91] ++ (jstr "🎯🌟" ++ upGlyph) ++
  [93, 123] ++ (jstr "😊🤔" ++ upGlyph) ++ [125, 10145, 65039, 126, 91] ++
  (jstr "🌈🧩" ++ upGlyph) ++ [93, 124] ++ (jstr "🔒🔒" ++ upGlyph) ++
  [124] ++ (jstr "😂" ++ upGlyph) ++ [124] ++ upGlyph ++ [124] ++ upGlyph ++
  [124, 93, 93]

/-- The SuperKey createSuperkey actually builds, described as a function of
the parse of the first key alone: every dimension of the envelope is that
key's parsed value with the UP glyph appended. -/
def superFromFirst (p : ParsedEmojikey) : List Nat :=
  [91, 91, 215, 55] ++ (p.topic ++ upGlyph) ++ [93, 10216] ++
  (p.approach ++ upGlyph) ++ [10217, 91] ++ (p.goal ++ upGlyph) ++
  [93, 123] ++ (p.tone ++ upGlyph) ++ [125, 10145, 65039, 126, 91] ++
  (p.context ++ upGlyph) ++ [93, 124] ++ (p.trust ++ upGlyph) ++ [124] ++
  (p.style ++ upGlyph) ++ [124] ++ (p.humor ++ upGlyph) ++ [124] ++
  (p.collab ++ upGlyph) ++ [124, 93, 93]

theorem cleanSeq_spec {s : List Nat} (h : isCleanSeq s = true) :
    ∀ x ∈ s, x ≠ 91 ∧ x ≠ 93 ∧ x ≠ 10216 ∧ x ≠ 10217 ∧ x ≠ 123 ∧ x ≠ 125 ∧
      x ≠ 126 ∧ x ≠ 124 ∧ isLineTermU x = false := by
  intro x hx
  have hall := List.all_eq_true.mp h x hx
  simp only [cleanUnit, isLineTermU, Bool.not_eq_true', Bool.or_eq_false_iff,
    decide_eq_false_iff_not] at hall
  exact ⟨hall.1.1.1.1.1.1.1.1, hall.1.1.1.1.1.1.1.2, hall.1.1.1.1.1.1.2,
    hall.1.1.1.1.1.2, hall.1.1.1.1.2, hall.1.1.1.2, hall.1.1.2, hall.1.2,
    by simp [isLineTermU, hall.2.1, hall.2.2]⟩

theorem splitAtFirst_append {c : Nat} (pre rest : List Nat)
    (h1 : ∀ x ∈ pre, x ≠ c) (h2 : ∀ x ∈ pre, isLineTermU x = false) :
    splitAtFirst c (pre ++ c :: rest) = some (pre, rest) := by
  induction pre with
  | nil => simp [splitAtFirst]
  | cons x pre ih =>
    have hx : x ≠ c := h1 x (by simp)
    have hlt : isLineTermU x = false := h2 x (by simp)
    simp [splitAtFirst, hx, hlt,
      ih (fun y hy => h1 y (by simp [hy])) (fun y hy => h2 y (by simp [hy]))]

theorem splitAtFirst_sound {c : Nat} :
    ∀ {l pre post : List Nat}, splitAtFirst c l = some (pre, post) →
      l = pre ++ c :: post := by
  intro l
  induction l with
  | nil => intro pre post h; simp [splitAtFirst] at h
  | cons x rest ih =>
    intro pre post h
    simp only [splitAtFirst] at h
    split at h
    · rename_i hx
      simp only [Option.some.injEq, Prod.mk.injEq] at h
      simp [← h.1, ← h.2, hx]
    · split at h
      · simp at h
      · cases hsp : splitAtFirst c rest with
        | none => rw [hsp] at h; simp at h
        | some p =>
          rw [hsp] at h
          simp only [Option.some.injEq, Prod.mk.injEq] at h
          have := @ih p.1 p.2 (by simp [hsp])
          simp [← h.1, ← h.2, this]

theorem splitAtFirst_length {c : Nat} {l pre post : List Nat}
    (h : splitAtFirst c l = some (pre, post)) : post.length < l.length := by
  have := splitAtFirst_sound h
  subst this
  simp
  omega

theorem matchFirst_cons_ne {o c x : Nat} (s : List Nat) (h : x ≠ o) :
    matchFirst o c (x :: s) = matchFirst o c s := by
  simp [matchFirst, h]

theorem matchFirst_append {o c : Nat} (pre s : List Nat)
    (h : ∀ x ∈ pre, x ≠ o) :
    matchFirst o c (pre ++ s) = matchFirst o c s := by
  induction pre with
  | nil => simp
  | cons x pre ih =>
    rw [List.cons_append, matchFirst_cons_ne _ (h x (by simp))]
    exact ih (fun y hy => h y (by simp [hy]))

theorem matchFirst_hit {o c : Nat} (content rest : List Nat)
    (h1 : ∀ x ∈ content, x ≠ c) (h2 : ∀ x ∈ content, isLineTermU x = false) :
    matchFirst o c (o :: (content ++ c :: rest)) = some content := by
  simp [matchFirst, splitAtFirst_append content rest h1 h2]

theorem matchAllDelimAux_congr {o c : Nat} :
    ∀ (f1 f2 : Nat) (s : List Nat), s.length ≤ f1 → s.length ≤ f2 →
      matchAllDelimAux o c f1 s = matchAllDelimAux o c f2 s := by
  intro f1
  induction f1 with
  | zero =>
    intro f2 s h1 _
    have hs : s = [] := List.eq_nil_of_length_eq_zero (Nat.le_zero.mp h1)
    subst hs
    cases f2 <;> rfl
  | succ a ih =>
    intro f2 s h1 h2
    cases s with
    | nil => cases f2 <;> rfl
    | cons x rest =>
      cases f2 with
      | zero => simp at h2
      | succ b =>
        simp only [List.length_cons] at h1 h2
        simp only [matchAllDelimAux]
        by_cases hx : x = o
        · simp only [hx, if_true]
          cases hsp : splitAtFirst c rest with
          | none => exact ih b rest (by omega) (by omega)
          | some p =>
            have hlen := splitAtFirst_length hsp
            simp [ih b p.2 (by omega) (by omega)]
        · simp only [hx, if_false]
          exact ih b rest (by omega) (by omega)

theorem matchAllDelim_cons_ne {o c x : Nat} (s : List Nat) (h : x ≠ o) :
    matchAllDelim o c (x :: s) = matchAllDelim o c s := by
  simp [matchAllDelim, matchAllDelimAux, h]

theorem matchAllDelim_append {o c : Nat} (pre s : List Nat)
    (h : ∀ x ∈ pre, x ≠ o) :
    matchAllDelim o c (pre ++ s) = matchAllDelim o c s := by
  induction pre with
  | nil => simp
  | cons x pre ih =>
    rw [List.cons_append, matchAllDelim_cons_ne _ (h x (by simp))]
    exact ih (fun y hy => h y (by simp [hy]))

theorem matchAllDelim_group {o c : Nat} (content rest : List Nat)
    (h1 : ∀ x ∈ content, x ≠ c) (h2 : ∀ x ∈ content, isLineTermU x = false) :
    matchAllDelim o c (o :: (content ++ c :: rest)) =
      content :: matchAllDelim o c rest := by
  simp only [matchAllDelim, List.length_cons, matchAllDelimAux, if_true,
    splitAtFirst_append content rest h1 h2]
  rw [matchAllDelimAux_congr _ rest.length rest (by simp; omega) (by omega)]

theorem matchAllDelim_none {o c : Nat} {s : List Nat}
    (h : ∀ x ∈ s, x ≠ c) : matchAllDelim o c s = [] := by
  suffices haux : ∀ (f : Nat) (t : List Nat), (∀ x ∈ t, x ≠ c) →
      matchAllDelimAux o c f t = [] from haux s.length s h
  intro f
  induction f with
  | zero => intro t _; rfl
  | succ a ih =>
    intro t ht
    cases t with
    | nil => rfl
    | cons x rest =>
      have hrest : ∀ y ∈ rest, y ≠ c := fun y hy => ht y (by simp [hy])
      simp only [matchAllDelimAux]
      by_cases hx : x = o
      · simp only [hx, if_true]
        cases hsp : splitAtFirst c rest with
        | none => exact ih rest hrest
        | some p =>
          have := splitAtFirst_sound hsp
          exact absurd rfl (ht c (by simp [this]))
      · simp only [hx, if_false]
        exact ih rest hrest

theorem matchAllDelim_single (o c : Nat) :
    matchAllDelim o c [o] = [] := by
  simp [matchAllDelim, matchAllDelimAux, splitAtFirst]

theorem matchTildeBracket_cons_ne {x : Nat} (s : List Nat) (h : x ≠ 126) :
    matchTildeBracket (x :: s) = matchTildeBracket s := by
  simp [matchTildeBracket, h]

theorem matchTildeBracket_append (pre s : List Nat)
    (h : ∀ x ∈ pre, x ≠ 126) :
    matchTildeBracket (pre ++ s) = matchTildeBracket s := by
  induction pre with
  | nil => simp
  | cons x pre ih =>
    rw [List.cons_append, matchTildeBracket_cons_ne _ (h x (by simp))]
    exact ih (fun y hy => h y (by simp [hy]))

theorem matchTildeBracket_hit (content rest : List Nat)
    (h1 : ∀ x ∈ content, x ≠ 93) (h2 : ∀ x ∈ content, isLineTermU x = false) :
    matchTildeBracket (126 :: 91 :: (content ++ 93 :: rest)) = some content := by
  simp [matchTildeBracket, splitAtFirst_append content rest h1 h2]

theorem clean_ne91 {s : List Nat} (h : isCleanSeq s = true) : ∀ x ∈ s, x ≠ 91 :=
  fun x hx => (cleanSeq_spec h x hx).1

theorem clean_ne93 {s : List Nat} (h : isCleanSeq s = true) : ∀ x ∈ s, x ≠ 93 :=
  fun x hx => (cleanSeq_spec h x hx).2.1

theorem clean_ne10216 {s : List Nat} (h : isCleanSeq s = true) :
    ∀ x ∈ s, x ≠ 10216 :=
  fun x hx => (cleanSeq_spec h x hx).2.2.1

theorem clean_ne10217 {s : List Nat} (h : isCleanSeq s = true) :
    ∀ x ∈ s, x ≠ 10217 :=
  fun x hx => (cleanSeq_spec h x hx).2.2.2.1

theorem clean_ne123 {s : List Nat} (h : isCleanSeq s = true) : ∀ x ∈ s, x ≠ 123 :=
  fun x hx => (cleanSeq_spec h x hx).2.2.2.2.1

theorem clean_ne125 {s : List Nat} (h : isCleanSeq s = true) : ∀ x ∈ s, x ≠ 125 :=
  fun x hx => (cleanSeq_spec h x hx).2.2.2.2.2.1

theorem clean_ne126 {s : List Nat} (h : isCleanSeq s = true) : ∀ x ∈ s, x ≠ 126 :=
  fun x hx => (cleanSeq_spec h x hx).2.2.2.2.2.2.1

theorem clean_ne124 {s : List Nat} (h : isCleanSeq s = true) : ∀ x ∈ s, x ≠ 124 :=
  fun x hx => (cleanSeq_spec h x hx).2.2.2.2.2.2.2.1

theorem clean_nl {s : List Nat} (h : isCleanSeq s = true) :
    ∀ x ∈ s, isLineTermU x = false :=
  fun x hx => (cleanSeq_spec h x hx).2.2.2.2.2.2.2.2

/-- The full behaviour of parseEmojikey on an assembled key whose nine
dimension values are clean glyph sequences: the bracket and brace groups and
the first pipe group are recovered, the style field receives the humor
value, and the humor and collab fields are empty, because the global pipe
match is non-overlapping and consumes the closing pipe of each group as the
opening pipe of the next match is not available any more. -/
theorem parse_assembleEmojikey (p : EmojikeyParts)
    (h1 : isCleanSeq p.topic = true) (h2 : isCleanSeq p.approach = true)
    (h3 : isCleanSeq p.goal = true) (h4 : isCleanSeq p.tone = true)
    (h5 : isCleanSeq p.context = true) (h6 : isCleanSeq p.trust = true)
    (h7 : isCleanSeq p.style = true) (h8 : isCleanSeq p.humor = true)
    (h9 : isCleanSeq p.collab = true) :
    parseEmojikey (assembleEmojikey p) =
      { topic := p.topic, approach := p.approach, goal := p.goal,
        tone := p.tone, context := p.context, trust := p.trust,
        style := p.humor, humor := [], collab := [], isSuperKey := false } := by
  have hA : assembleEmojikey p =
      91 :: (p.topic ++ 93 :: 10216 :: (p.approach ++ 10217 :: 91 :: (p.goal ++
      93 :: 123 :: (p.tone ++ 125 :: 10145 :: 65039 :: 126 :: 91 :: (p.context ++
      93 :: 124 :: (p.trust ++ 124 :: (p.style ++ 124 :: (p.humor ++
      124 :: (p.collab ++ [124]))))))))) := by
    simp [assembleEmojikey]
  have htopic : matchFirst 91 93 (assembleEmojikey p) = some p.topic := by
    rw [hA]
    exact matchFirst_hit _ _ (clean_ne93 h1) (clean_nl h1)
  have happroach : matchFirst 10216 10217 (assembleEmojikey p) =
      some p.approach := by
    rw [hA, matchFirst_cons_ne _ (by decide),
      matchFirst_append _ _ (clean_ne10216 h1), matchFirst_cons_ne _ (by decide)]
    exact matchFirst_hit _ _ (clean_ne10217 h2) (clean_nl h2)
  have hno93 : ∀ x ∈ (124 :: (p.trust ++ 124 :: (p.style ++ 124 :: (p.humor ++
      124 :: (p.collab ++ [124]))))), x ≠ 93 := by
    intro x hx
    simp only [List.mem_cons, List.mem_append, List.mem_singleton,
      List.not_mem_nil, or_false] at hx
    rcases hx with rfl | hx | rfl | hx | rfl | hx | rfl | hx | rfl
    · decide
    · exact clean_ne93 h6 x hx
    · decide
    · exact clean_ne93 h7 x hx
    · decide
    · exact clean_ne93 h8 x hx
    · decide
    · exact clean_ne93 h9 x hx
    · decide
  have hgoal : matchAllDelim 91 93 (assembleEmojikey p) =
      [p.topic, p.goal, p.context] := by
    rw [hA, matchAllDelim_group _ _ (clean_ne93 h1) (clean_nl h1),
      matchAllDelim_cons_ne _ (by decide),
      matchAllDelim_append _ _ (clean_ne91 h2),
      matchAllDelim_cons_ne _ (by decide),
      matchAllDelim_group _ _ (clean_ne93 h3) (clean_nl h3),
      matchAllDelim_cons_ne _ (by decide),
      matchAllDelim_append _ _ (clean_ne91 h4),
      matchAllDelim_cons_ne _ (by decide),
      matchAllDelim_cons_ne _ (by decide),
      matchAllDelim_cons_ne _ (by decide),
      matchAllDelim_cons_ne _ (by decide),
      matchAllDelim_group _ _ (clean_ne93 h5) (clean_nl h5),
      matchAllDelim_none hno93]
  have htone : matchFirst 123 125 (assembleEmojikey p) = some p.tone := by
    rw [hA, matchFirst_cons_ne _ (by decide),
      matchFirst_append _ _ (clean_ne123 h1),
      matchFirst_cons_ne _ (by decide), matchFirst_cons_ne _ (by decide),
      matchFirst_append _ _ (clean_ne123 h2),
      matchFirst_cons_ne _ (by decide), matchFirst_cons_ne _ (by decide),
      matchFirst_append _ _ (clean_ne123 h3),
      matchFirst_cons_ne _ (by decide)]
    exact matchFirst_hit _ _ (clean_ne125 h4) (clean_nl h4)
  have hcontext : matchTildeBracket (assembleEmojikey p) = some p.context := by
    rw [hA, matchTildeBracket_cons_ne _ (by decide),
      matchTildeBracket_append _ _ (clean_ne126 h1),
      matchTildeBracket_cons_ne _ (by decide),
      matchTildeBracket_cons_ne _ (by decide),
      matchTildeBracket_append _ _ (clean_ne126 h2),
      matchTildeBracket_cons_ne _ (by decide),
      matchTildeBracket_cons_ne _ (by decide),
      matchTildeBracket_append _ _ (clean_ne126 h3),
      matchTildeBracket_cons_ne _ (by decide),
      matchTildeBracket_cons_ne _ (by decide),
      matchTildeBracket_append _ _ (clean_ne126 h4),
      matchTildeBracket_cons_ne _ (by decide),
      matchTildeBracket_cons_ne _ (by decide),
      matchTildeBracket_cons_ne _ (by decide)]
    exact matchTildeBracket_hit _ _ (clean_ne93 h5) (clean_nl h5)
  have hpipes : matchAllDelim 124 124 (assembleEmojikey p) =
      [p.trust, p.humor] := by
    rw [hA, matchAllDelim_cons_ne _ (by decide),
      matchAllDelim_append _ _ (clean_ne124 h1),
      matchAllDelim_cons_ne _ (by decide),
      matchAllDelim_cons_ne _ (by decide),
      matchAllDelim_append _ _ (clean_ne124 h2),
      matchAllDelim_cons_ne _ (by decide),
      matchAllDelim_cons_ne _ (by decide),
      matchAllDelim_append _ _ (clean_ne124 h3),
      matchAllDelim_cons_ne _ (by decide),
      matchAllDelim_cons_ne _ (by decide),
      matchAllDelim_append _ _ (clean_ne124 h4),
      matchAllDelim_cons_ne _ (by decide),
      matchAllDelim_cons_ne _ (by decide),
      matchAllDelim_cons_ne _ (by decide),
      matchAllDelim_cons_ne _ (by decide),
      matchAllDelim_cons_ne _ (by decide),
      matchAllDelim_append _ _ (clean_ne124 h5),
      matchAllDelim_cons_ne _ (by decide),
      matchAllDelim_group _ _ (clean_ne124 h6) (clean_nl h6),
      matchAllDelim_append _ _ (clean_ne124 h7),
      matchAllDelim_group _ _ (clean_ne124 h8) (clean_nl h8),
      matchAllDelim_append _ _ (clean_ne124 h9),
      matchAllDelim_single]
  have hsuper : List.isPrefixOf [91, 91, 215, 55] (assembleEmojikey p) =
      false := by
    rw [hA]
    cases htop : p.topic with
    | nil => simp [List.isPrefixOf]
    | cons t ts =>
      have hne : t ≠ 91 := clean_ne91 h1 t (by simp [htop])
      simp [List.isPrefixOf, Ne.symm hne]
  simp [parseEmojikey, htopic, happroach, hgoal, htone, hcontext, hpipes, hsuper]

/-- C1: refuted on the code.  Parsing the canonical key assembled from the
complete default state does not return that state: the first conjunct
evaluates the parser and shows that the style field receives the humor
value while the humor and collab fields come back empty, because the global
pipe match is non-overlapping; the second conjunct states the failed
round-trip equation itself. -/
theorem roundtrip_drops_pipe_dimensions :
    parseEmojikey (assembleEmojikey demoParts) =
      ParsedEmojikey.mk
        { demoParts with style := jstr "😂", humor := [], collab := [] }
        false ∧
    parseEmojikey (assembleEmojikey demoParts) ≠
      ParsedEmojikey.mk demoParts false := by
  decide

/-- C2: refuted on the code.  Compressing five identical keys that carry no
trend glyph yields a SuperKey in which every dimension carries the first
key's value with the UP glyph appended; no STABLE glyph appears anywhere,
where the claim demands the shared topic value with a STABLE glyph. -/
theorem compress_appends_up_not_stable :
    createSuperkey (List.replicate 5 kNoTrend) = Except.ok kNoTrendSuper ∧
    countSubstr stableGlyph kNoTrendSuper = 0 ∧
    countSubstr upGlyph kNoTrendSuper = 9 := by
  decide

/-- C3 counterexample: on an input with none of the required delimiter
groups, parseEmojikey does not fail with any error; it returns the record
with every dimension silently defaulted to the empty string, which is
exactly the behaviour the claim rules out. -/
theorem parse_no_groups_returns_defaults :
    parseEmojikey (jstr "no delimiter groups at all") =
      ParsedEmojikey.mk
        { topic := [], approach := [], goal := [], tone := [], context := [],
          trust := [], style := [], humor := [], collab := [] }
        false := by
  decide

/-- C3 amended: parseEmojikey is total and never fails; whenever one of the
required delimiter groups is absent from the input, the corresponding
dimension fields are silently defaulted to the empty string. -/
theorem parse_missing_groups_default (s : List Nat) :
    (matchFirst 91 93 s = none → (parseEmojikey s).topic = []) ∧
    (matchFirst 10216 10217 s = none → (parseEmojikey s).approach = []) ∧
    ((matchAllDelim 91 93 s).length ≤ 1 → (parseEmojikey s).goal = []) ∧
    (matchFirst 123 125 s = none → (parseEmojikey s).tone = []) ∧
    (matchTildeBracket s = none → (parseEmojikey s).context = []) ∧
    ((matchAllDelim 124 124 s).length = 0 → (parseEmojikey s).trust = []) ∧
    ((matchAllDelim 124 124 s).length ≤ 1 → (parseEmojikey s).style = []) ∧
    ((matchAllDelim 124 124 s).length ≤ 2 → (parseEmojikey s).humor = []) ∧
    ((matchAllDelim 124 124 s).length ≤ 3 → (parseEmojikey s).collab = []) := by
  refine ⟨fun h => ?_, fun h => ?_, fun h => ?_, fun h => ?_, fun h => ?_,
    fun h => ?_, fun h => ?_, fun h => ?_, fun h => ?_⟩ <;>
    simp only [parseEmojikey, h, Option.getD_none] <;>
    rw [if_neg (by omega)]

/-- C3 witness: the empty string lacks every group and every dimension of
its parse is the empty string. -/
theorem parse_missing_groups_default_spot :
    (parseEmojikey []).topic = [] ∧ (parseEmojikey []).approach = [] ∧
    (parseEmojikey []).goal = [] ∧ (parseEmojikey []).tone = [] ∧
    (parseEmojikey []).context = [] ∧ (parseEmojikey []).trust = [] ∧
    (parseEmojikey []).style = [] ∧ (parseEmojikey []).humor = [] ∧
    (parseEmojikey []).collab = [] := by
  have h := parse_missing_groups_default []
  exact ⟨h.1 (by decide), h.2.1 (by decide), h.2.2.1 (by decide),
    h.2.2.2.1 (by decide), h.2.2.2.2.1 (by decide), h.2.2.2.2.2.1 (by decide),
    h.2.2.2.2.2.2.1 (by decide), h.2.2.2.2.2.2.2.1 (by decide),
    h.2.2.2.2.2.2.2.2 (by decide)⟩

theorem parse_isSuperKey (t : List Nat) :
    (parseEmojikey ([91, 91, 215, 55] ++ t)).isSuperKey = true := by
  simp [parseEmojikey, List.isPrefixOf]

/-- C4: createSuperkey rejects any history shorter than five keys with the
insufficient-history error, and on any history of at least five keys it
succeeds with an output whose parse carries the SuperKey flag. -/
theorem compress_min_history (ks : List (List Nat)) :
    (ks.length < 5 →
      createSuperkey ks = Except.error SuperkeyError.insufficientHistory) ∧
    (5 ≤ ks.length → ∃ out, createSuperkey ks = Except.ok out ∧
      (parseEmojikey out).isSuperKey = true) := by
  constructor
  · intro h
    simp [createSuperkey, h]
  · intro h
    simp only [createSuperkey]
    rw [if_neg (by omega)]
    refine ⟨_, rfl, ?_⟩
    simp only [List.append_assoc]
    exact parse_isSuperKey _

/-- C4 witness: four default keys are rejected, five are accepted and parse
as a SuperKey. -/
theorem compress_min_history_spot :
    createSuperkey (List.replicate 4 defaultKey) =
      Except.error SuperkeyError.insufficientHistory ∧
    ∃ out, createSuperkey (List.replicate 5 defaultKey) = Except.ok out ∧
      (parseEmojikey out).isSuperKey = true :=
  ⟨(compress_min_history (List.replicate 4 defaultKey)).1 (by decide),
   (compress_min_history (List.replicate 5 defaultKey)).2 (by decide)⟩

/-- C5: refuted on the code.  calculateUpdates returns the previous nine
dimension values unchanged for every delta context, so no replacement ever
happens and no trend glyph is ever appended or replaced; concretely,
updating the default key under a context signalling new mentions emits no
UP, DOWN or STABLE glyph at all. -/
theorem update_ignores_signal :
    (∀ (parsed : ParsedEmojikey) (ctx : InteractionContext),
      calculateUpdates parsed ctx = parsed.toEmojikeyParts) ∧
    countSubstr upGlyph (updateEmojikey defaultKey { mentions := [jstr "ai"] }) = 0 ∧
    countSubstr downGlyph (updateEmojikey defaultKey { mentions := [jstr "ai"] }) = 0 ∧
    countSubstr stableGlyph (updateEmojikey defaultKey { mentions := [jstr "ai"] }) = 0 :=
  ⟨fun _ _ => rfl, by decide, by decide, by decide⟩

/-- C6: the trust level reported by the interpreter is determined by the
number of lock glyphs in the parsed trust dimension, the first pipe group:
zero, one, two, and three or more locks map to the four documented
phrases. -/
theorem trust_lock_thresholds (k : List Nat) (n : Nat)
    (h : countSubstr lockGlyph (parseEmojikey k).trust = n) :
    (interpretEmojikey k).trustLevel =
      (if n = 0 then jstr "Trust not yet established"
       else if n = 1 then jstr "Initial trust forming"
       else if n = 2 then jstr "Medium trust developing"
       else jstr "High trust established") := by
  subst h
  simp only [interpretEmojikey, interpretTrustLevel]
  split_ifs <;> first | rfl | omega

/-- C6 witness: the default key carries two locks in its trust group and
interprets as medium trust. -/
theorem trust_lock_thresholds_spot :
    (interpretEmojikey defaultKey).trustLevel =
      jstr "Medium trust developing" := by
  have h := trust_lock_thresholds defaultKey 2 (by decide)
  simpa using h

/-- C7: the overall trend is classified from the counts of the four trend
glyphs over the entire raw key by the fixed priority chain, and a key with
exactly two UP and two DOWN glyphs and no STABLE or CYCLIC glyph falls
through every strict comparison to the mixed verdict. -/
theorem overall_trend_priority (k : List Nat) :
    (interpretEmojikey k).overallTrend =
      (if countSubstr upGlyph k > countSubstr downGlyph k ∧
          countSubstr upGlyph k > countSubstr stableGlyph k then
        jstr "improving"
       else if countSubstr downGlyph k > countSubstr upGlyph k ∧
          countSubstr downGlyph k > countSubstr stableGlyph k then
        jstr "declining"
       else if countSubstr stableGlyph k > countSubstr upGlyph k ∧
          countSubstr stableGlyph k > countSubstr downGlyph k then
        jstr "stable"
       else if countSubstr cyclicGlyph k > countSubstr upGlyph k ∧
          countSubstr cyclicGlyph k > countSubstr downGlyph k ∧
          countSubstr cyclicGlyph k > countSubstr stableGlyph k then
        jstr "fluctuating"
       else jstr "mixed") ∧
    (countSubstr upGlyph k = 2 → countSubstr downGlyph k = 2 →
      countSubstr stableGlyph k = 0 → countSubstr cyclicGlyph k = 0 →
      (interpretEmojikey k).overallTrend = jstr "mixed") := by
  constructor
  · rfl
  · intro hu hd hs hf
    simp only [interpretEmojikey, detectOverallTrend, hu, hd, hs, hf]
    norm_num

/-- C7 witness: a string of two UP glyphs then two DOWN glyphs interprets
as mixed. -/
theorem overall_trend_priority_spot :
    (interpretEmojikey (jstr "⬆️⬆️⬇️⬇️")).overallTrend = jstr "mixed" :=
  (overall_trend_priority (jstr "⬆️⬆️⬇️⬇️")).2 (by decide) (by decide)
    (by decide) (by decide)

theorem lookupMap_range (m : List (List Nat × List Nat)) (k d : List Nat) :
    lookupMap m k d ∈
      (m.map Prod.snd ++ [d]).map JsValue.str ++
        protoNames.map JsValue.inherited := by
  unfold lookupMap
  cases hf : List.find? (fun p => p.1 == k) m with
  | some p =>
    exact List.mem_append_left _ (List.mem_map_of_mem _
      (List.mem_append_left _
        (List.mem_map_of_mem _ (List.mem_of_find?_eq_some hf))))
  | none =>
    by_cases hk : protoNames.contains k = true
    · rw [if_pos hk]
      exact List.mem_append_right _
        (List.mem_map_of_mem _ (by simpa using hk))
    · rw [if_neg hk]
      exact List.mem_append_left _ (List.mem_map_of_mem _ (by simp))

theorem interpretTopic_range (t : List Nat) :
    interpretTopicEmojis t ∈
      (topicMap.map Prod.snd ++ [jstr "General tech discussion"]).map
          JsValue.str ++
        protoNames.map JsValue.inherited :=
  lookupMap_range topicMap (removeTrendUnits t) (jstr "General tech discussion")

theorem interpretApproach_range (t : List Nat) :
    interpretApproachEmojis t ∈
      (approachMap.map Prod.snd ++ [jstr "General exploratory approach"]).map
          JsValue.str ++
        protoNames.map JsValue.inherited :=
  lookupMap_range approachMap (removeTrendUnits t)
    (jstr "General exploratory approach")

theorem interpretGoal_range (t : List Nat) :
    interpretGoalEmojis t ∈
      (goalMap.map Prod.snd ++ [jstr "General exploration goals"]).map
          JsValue.str ++
        protoNames.map JsValue.inherited :=
  lookupMap_range goalMap (removeTrendUnits t) (jstr "General exploration goals")

theorem interpretTone_range (t : List Nat) :
    interpretToneEmojis t ∈
      (toneMap.map Prod.snd ++ [jstr "Neutral professional tone"]).map
          JsValue.str ++
        protoNames.map JsValue.inherited :=
  lookupMap_range toneMap (removeTrendUnits t) (jstr "Neutral professional tone")

theorem interpretContext_range (t : List Nat) :
    interpretContextEmojis t ∈
      (contextMap.map Prod.snd ++ [jstr "General digital context"]).map
          JsValue.str ++
        protoNames.map JsValue.inherited :=
  lookupMap_range contextMap (removeTrendUnits t) (jstr "General digital context")

theorem interpretStyle_range (t : List Nat) :
    interpretStyleEmojis t ∈
      (styleMap.map Prod.snd ++ [jstr "Standard communication style"]).map
          JsValue.str ++
        protoNames.map JsValue.inherited :=
  lookupMap_range styleMap t (jstr "Standard communication style")

theorem interpretTrust_range (t : List Nat) :
    interpretTrustLevel t ∈
      [jstr "High trust established", jstr "Medium trust developing",
       jstr "Initial trust forming", jstr "Trust not yet established"] := by
  simp only [interpretTrustLevel]
  split_ifs <;> simp

theorem interpretHumor_range (t : List Nat) :
    interpretHumorLevel t ∈
      [jstr "High and increasing humor", jstr "Consistent moderate humor",
       jstr "Decreasing humor level", jstr "Limited humor, primarily serious",
       jstr "Balanced humor approach"] := by
  simp only [interpretHumorLevel]
  split_ifs <;> simp

theorem interpretCollab_range (t : List Nat) :
    interpretCollabPattern t ∈
      [jstr "Strongly increasing collaboration", jstr "Growing collaboration",
       jstr "Stable collaborative relationship", jstr "Decreasing collaboration",
       jstr "Standard collaborative pattern"] := by
  simp only [interpretCollabPattern]
  split_ifs <;> simp

theorem detectOverallTrend_range (k : List Nat) :
    detectOverallTrend k ∈
      [jstr "improving", jstr "declining", jstr "stable", jstr "fluctuating",
       jstr "mixed"] := by
  simp only [detectOverallTrend]
  split_ifs <;> simp

/-- C8 counterexample: the default-substitution half of the claim is false
of the program.  The key whose topic group is the word constructor parses
to the probe constructor, which is not an own key of the topic table but
does name a member inherited from the object prototype; the property
access finds that truthy member, the fallback is skipped, and the reported
topic focus is the inherited function rather than the documented default
phrase or any table value. -/
theorem interpret_proto_leak :
    (interpretEmojikey (jstr "[constructor]")).topicFocus =
      JsValue.inherited (jstr "constructor") ∧
    (interpretEmojikey (jstr "[constructor]")).topicFocus ∉
      (topicMap.map Prod.snd ++ [jstr "General tech discussion"]).map
        JsValue.str := by
  decide

/-- C8 amended: the encoder side is as claimed: createEmojikey always
returns one of its three canonical keys, varying only in the topic slot,
and generateEmojikey always returns the default key.  The interpreter
never raises and always returns a full report, but the default
substitution only holds up to the prototype chain: every table-driven
field is an own table value, the documented default phrase, or a member
inherited from the object prototype when the cleaned probe names one; the
rule-based fields stay within their documented phrase sets. -/
theorem encode_interpret_range :
    (∀ ctx : InteractionContext,
      createEmojikey ctx = assembleEmojikey
          { topic := jstr "💻🧠", approach := jstr "🔍🤔", goal := jstr "🎯🌟",
            tone := jstr "😊🚀", context := jstr "🌐🔄", trust := jstr "🔒🔒",
            style := jstr "📊↗️", humor := jstr "😂↔️", collab := jstr "🤝↗️" } ∨
      createEmojikey ctx = assembleEmojikey
          { topic := jstr "🦅💰", approach := jstr "🔍🤔", goal := jstr "🎯🌟",
            tone := jstr "😊🚀", context := jstr "🌐🔄", trust := jstr "🔒🔒",
            style := jstr "📊↗️", humor := jstr "😂↔️", collab := jstr "🤝↗️" } ∨
      createEmojikey ctx = assembleEmojikey
          { topic := jstr "💻🔍", approach := jstr "🔍🤔", goal := jstr "🎯🌟",
            tone := jstr "😊🚀", context := jstr "🌐🔄", trust := jstr "🔒🔒",
            style := jstr "📊↗️", humor := jstr "😂↔️", collab := jstr "🤝↗️" }) ∧
    (∀ history : List (List Nat),
      generateEmojikey history = assembleEmojikey demoParts) ∧
    (∀ s : List Nat,
      (interpretEmojikey s).topicFocus ∈
        (topicMap.map Prod.snd ++ [jstr "General tech discussion"]).map
            JsValue.str ++
          protoNames.map JsValue.inherited ∧
      (interpretEmojikey s).approachStyle ∈
        (approachMap.map Prod.snd ++ [jstr "General exploratory approach"]).map
            JsValue.str ++
          protoNames.map JsValue.inherited ∧
      (interpretEmojikey s).relationshipGoals ∈
        (goalMap.map Prod.snd ++ [jstr "General exploration goals"]).map
            JsValue.str ++
          protoNames.map JsValue.inherited ∧
      (interpretEmojikey s).emotionalTone ∈
        (toneMap.map Prod.snd ++ [jstr "Neutral professional tone"]).map
            JsValue.str ++
          protoNames.map JsValue.inherited ∧
      (interpretEmojikey s).interactionContext ∈
        (contextMap.map Prod.snd ++ [jstr "General digital context"]).map
            JsValue.str ++
          protoNames.map JsValue.inherited ∧
      (interpretEmojikey s).trustLevel ∈
        [jstr "High trust established", jstr "Medium trust developing",
         jstr "Initial trust forming", jstr "Trust not yet established"] ∧
      (interpretEmojikey s).communicationStyle ∈
        (styleMap.map Prod.snd ++ [jstr "Standard communication style"]).map
            JsValue.str ++
          protoNames.map JsValue.inherited ∧
      (interpretEmojikey s).humorAlignment ∈
        [jstr "High and increasing humor", jstr "Consistent moderate humor",
         jstr "Decreasing humor level",
         jstr "Limited humor, primarily serious",
         jstr "Balanced humor approach"] ∧
      (interpretEmojikey s).collaborationPattern ∈
        [jstr "Strongly increasing collaboration", jstr "Growing collaboration",
         jstr "Stable collaborative relationship",
         jstr "Decreasing collaboration",
         jstr "Standard collaborative pattern"] ∧
      (interpretEmojikey s).overallTrend ∈
        [jstr "improving", jstr "declining", jstr "stable", jstr "fluctuating",
         jstr "mixed"]) := by
  refine ⟨?_, ?_, ?_⟩
  · intro ctx
    simp only [createEmojikey, determineTopicEmojis, determineApproachEmojis,
      determineGoalEmojis, determineToneEmojis, determineContextEmojis,
      determineTrustLevel, determineStyleEmojis, determineHumorLevel,
      determineCollabPattern, assembleEmojikey]
    split_ifs <;> simp
  · intro history
    rfl
  · intro s
    exact ⟨interpretTopic_range _, interpretApproach_range _,
      interpretGoal_range _, interpretTone_range _, interpretContext_range _,
      interpretTrust_range _, interpretStyle_range _, interpretHumor_range _,
      interpretCollab_range _, detectOverallTrend_range _⟩

/-- C9: positional parsing of the bracket groups: a well-formed key whose
first and second bracket groups both carry the same clean glyph sequence
parses to a record whose distinct topic and goal fields both equal that
sequence. -/
theorem positional_topic_goal (g : List Nat) (p : EmojikeyParts)
    (hg : isCleanSeq g = true)
    (ha : isCleanSeq p.approach = true) (hto : isCleanSeq p.tone = true)
    (hc : isCleanSeq p.context = true) (htr : isCleanSeq p.trust = true)
    (hst : isCleanSeq p.style = true) (hhu : isCleanSeq p.humor = true)
    (hco : isCleanSeq p.collab = true)
    (htop : p.topic = g) (hgoal : p.goal = g) :
    (parseEmojikey (assembleEmojikey p)).topic = g ∧
    (parseEmojikey (assembleEmojikey p)).goal = g := by
  have h := parse_assembleEmojikey p (by rw [htop]; exact hg) ha
    (by rw [hgoal]; exact hg) hto hc htr hst hhu hco
  rw [h]
  exact ⟨htop, hgoal⟩

/-- C9 witness: the tech-search pair placed in both bracket positions is
recovered in both the topic and the goal field. -/
theorem positional_topic_goal_spot :
    (parseEmojikey (assembleEmojikey
        { kNoTrendParts with
          topic := jstr "💻🔍", goal := jstr "💻🔍" })).topic = jstr "💻🔍" ∧
    (parseEmojikey (assembleEmojikey
        { kNoTrendParts with
          topic := jstr "💻🔍", goal := jstr "💻🔍" })).goal = jstr "💻🔍" :=
  positional_topic_goal (jstr "💻🔍") _ (by decide) (by decide) (by decide)
    (by decide) (by decide) (by decide) (by decide) (by decide) rfl rfl

/-- C10: the SuperKey produced by createSuperkey depends on the first key
alone: it is the fixed envelope filled with the first key's parsed
dimension values, each with the UP glyph appended, so two histories of
length at least five sharing a first key compress identically. -/
theorem compress_first_key_only (ks1 ks2 : List (List Nat))
    (hl1 : 5 ≤ ks1.length) (hl2 : 5 ≤ ks2.length)
    (hh : ks1.headD [] = ks2.headD []) :
    createSuperkey ks1 =
      Except.ok (superFromFirst (parseEmojikey (ks1.headD []))) ∧
    createSuperkey ks1 = createSuperkey ks2 := by
  obtain ⟨k1, t1, rfl⟩ : ∃ a t, ks1 = a :: t := by
    cases ks1 with
    | nil => simp at hl1
    | cons a t => exact ⟨a, t, rfl⟩
  obtain ⟨k2, t2, rfl⟩ : ∃ a t, ks2 = a :: t := by
    cases ks2 with
    | nil => simp at hl2
    | cons a t => exact ⟨a, t, rfl⟩
  simp only [List.headD_cons] at hh
  subst hh
  constructor
  · simp only [createSuperkey, superFromFirst, analyzePattern]
    rw [if_neg (by omega)]
    simp
  · simp only [createSuperkey, analyzePattern]
    rw [if_neg (by omega), if_neg (by omega)]
    simp

/-- C10 witness: five default keys compress to the envelope built from the
first key, and replacing every later key leaves the result unchanged. -/
theorem compress_first_key_only_spot :
    createSuperkey (List.replicate 5 defaultKey) =
      Except.ok (superFromFirst
        (parseEmojikey ((List.replicate 5 defaultKey).headD []))) ∧
    createSuperkey (List.replicate 5 defaultKey) =
      createSuperkey (defaultKey :: List.replicate 4 kNoTrend) :=
  compress_first_key_only (List.replicate 5 defaultKey)
    (defaultKey :: List.replicate 4 kNoTrend) (by decide) (by decide)
    (by decide)
